import Mathlib

/-!
Verification of the interactive remote command session layer of the
network-auto-configuration repository.  The Python sources
(router_manager.py, main_router.py) are shallowly embedded below:
strings are lists of characters, shell time is counted in poll ticks,
and the stateful manager operations are modelled as pure functions
that additionally report the trace of commands they issue and the
files they write.
-/

namespace NetworkAutoConfig

/-- A captured text line, as a list of characters. -/
abbrev Line := List Char

/-- Characters removed by Python str.strip() with no arguments
(ASCII whitespace, as produced by the devices in scope). -/
def pySpace (c : Char) : Bool :=
  c == ' ' || c == '\t' || c == '\n' || c == '\r' || c == '\x0b' || c == '\x0c'

/-- Python line.strip(): drop leading and trailing whitespace. -/
def pyStrip (l : Line) : Line :=
  ((l.dropWhile pySpace).reverse.dropWhile pySpace).reverse

/-- Python line.rstrip of the carriage-return character. -/
def rstripCR (l : Line) : Line :=
  (l.reverse.dropWhile (fun c => c == '\r')).reverse

/-- The per-line normalisation applied by the cleaning loop of
RouterConnection.send_command: line.rstrip of CR, then strip. -/
def normLine (l : Line) : Line := pyStrip (rstripCR l)

/-- Python substring containment (needle in hay). -/
def hasSub (needle : Line) : Line → Bool
  | [] => needle.isEmpty
  | c :: rest => needle.isPrefixOf (c :: rest) || hasSub needle rest

theorem hasSub_iff (needle : Line) : ∀ hay : Line, hasSub needle hay = true ↔ needle <:+: hay := by
  intro hay
  induction hay with
  | nil =>
    simp [hasSub, List.isEmpty_iff]
  | cons c rest ih =>
    simp [hasSub, List.isPrefixOf_iff_prefix, ih, List.infix_cons_iff]

/-- RouterConnection._looks_like_prompt: after stripping, the line is
nonempty and ends in a hash or an angle bracket. -/
def looks_like_prompt (line : Line) : Bool :=
  let l := pyStrip line
  !l.isEmpty && (l.getLast? == some '#' || l.getLast? == some '>')

/-- The echo test of the cleaning loop in send_command: the stripped
line equals the cleaned command, ends with it, contains it, or contains
the command minus its first character. -/
def echo_match (command_clean li : Line) : Bool :=
  li == command_clean || command_clean.isSuffixOf li ||
    hasSub command_clean li || hasSub (command_clean.drop 1) li

/-- The cleaning loop of RouterConnection.send_command (lines 284-298
of router_manager.py), run over the splitlines image of the raw
capture.  State: the seen_echo flag and the cached prompt; returns the
kept lines and the updated prompt cache. -/
def clean_lines (c : Line) : List Line → Bool → Option Line → List Line × Option Line
  | [], _, prompt => ([], prompt)
  | line :: rest, seen_echo, prompt =>
    let li := normLine line
    if li.isEmpty then clean_lines c rest seen_echo prompt
    else if !seen_echo && echo_match c li then clean_lines c rest true prompt
    else if looks_like_prompt li then
      clean_lines c rest seen_echo (if prompt.isNone then some li else prompt)
    else
      (li :: (clean_lines c rest seen_echo prompt).1, (clean_lines c rest seen_echo prompt).2)

/-- Python newline join of the kept lines. -/
def joinNL : List Line → Line
  | [] => []
  | [l] => l
  | l :: rest => l ++ '\n' :: joinNL rest

/-- The cleaned output string produced by send_command:
newline-join of the kept lines, finally stripped. -/
def send_command_cleaned (c : Line) (prompt : Option Line) (raw_lines : List Line) : Line :=
  pyStrip (joinNL (clean_lines c raw_lines false prompt).1)

theorem clean_lines_after_echo (c p : Line) (hp : looks_like_prompt (normLine p) = true) :
    ∀ (out : List Line) (prompt : Option Line),
      (clean_lines c (out ++ [p]) true prompt).1
        = (out.map normLine).filter (fun l => !l.isEmpty && !looks_like_prompt l) := by
  intro out
  induction out with
  | nil =>
    intro prompt
    by_cases hE : (normLine p).isEmpty <;> simp [clean_lines, hE, hp]
  | cons l rest ih =>
    intro prompt
    by_cases hE : (normLine l).isEmpty
    · simp [clean_lines, hE, ih]
    · by_cases hP : looks_like_prompt (normLine l)
      · simp [clean_lines, hE, hP, ih]
      · simp [clean_lines, hE, hP, ih]

/-- C1 counterexample.  The claim says the N output lines are kept
unaltered; the code strips surrounding whitespace from every kept line
and drops output lines that happen to end in a prompt terminator, so
for the raw capture [echo, "  foo ", "bar#", prompt] the cleaner
returns ["foo"], not ["  foo ", "bar#"]. -/
theorem c1_cleaning_counterexample :
    (clean_lines ("show version".toList)
        ["show version".toList, "  foo ".toList, "bar#".toList, "Switch#".toList]
        false none).1
      ≠ ["  foo ".toList, "bar#".toList] := by decide

/-- C1 (amended).  Given a first line whose normalisation is nonempty
and echo-matches the command, N output lines and a final prompt line,
the cleaning loop yields exactly the output lines in order, each
normalised (CR-stripped and whitespace-stripped), minus those that are
blank or prompt-like after normalisation. -/
theorem c1_cleaning_amended (c l0 p : Line) (out : List Line) (prompt : Option Line)
    (h0 : (normLine l0).isEmpty = false)
    (h1 : echo_match c (normLine l0) = true)
    (hp : looks_like_prompt (normLine p) = true) :
    (clean_lines c (l0 :: (out ++ [p])) false prompt).1
      = (out.map normLine).filter (fun l => !l.isEmpty && !looks_like_prompt l) := by
  have h := clean_lines_after_echo c p hp out prompt
  simpa [clean_lines, h0, h1] using h

/-- Witness for the amended C1 theorem at a concrete capture. -/
theorem c1_cleaning_amended_witness :
    ((normLine "show ip interface brief".toList).isEmpty = false)
    ∧ (echo_match "show ip interface brief".toList (normLine "show ip interface brief".toList) = true)
    ∧ (looks_like_prompt (normLine "Router#".toList) = true)
    ∧ (clean_lines "show ip interface brief".toList
          ("show ip interface brief".toList :: (["GigabitEthernet0/0  10.0.0.1  up".toList] ++ ["Router#".toList]))
          false none).1
        = (["GigabitEthernet0/0  10.0.0.1  up".toList].map normLine).filter
            (fun l => !l.isEmpty && !looks_like_prompt l) :=
  ⟨by decide, by decide, by decide,
    c1_cleaning_amended _ _ _ _ _ (by decide) (by decide) (by decide)⟩

/-!
Quiet-period reader.  RouterConnection._read_until_quiet polls the
shell every 0.05 seconds; time is modelled in those poll ticks, so
quiet_time and max_total below are measured in ticks (0.4 s = 8 ticks,
5.0 s = 100 ticks).  A byte source maps a tick to the bytes read at
that tick (empty when recv_ready is false).
-/

/-- The polling loop of RouterConnection._read_until_quiet: read the
bytes available at the current tick, update the last-byte tick, stop
when the quiet interval has elapsed since the last byte or the total
deadline is reached, otherwise sleep one tick and continue.  Returns
the tick at which it stops together with the accumulated bytes. -/
def read_until_quiet_loop (source : Nat → List Char) (quiet_time max_total t last : Nat)
    (data : List Char) : Nat × List Char :=
  let recvReady := !(source t).isEmpty
  let data' := if recvReady then data ++ source t else data
  let last' := if recvReady then t else last
  if quiet_time ≤ t - last' then (t, data')
  else if max_total ≤ t then (t, data')
  else read_until_quiet_loop source quiet_time max_total (t + 1) last' data'
termination_by max_total - t
decreasing_by omega

/-- RouterConnection._read_until_quiet: start the loop with the start
tick also recorded as the last-byte tick (start = last = time.time()). -/
def read_until_quiet (source : Nat → List Char) (quiet_time max_total : Nat) : Nat × List Char :=
  read_until_quiet_loop source quiet_time max_total 0 0 []

theorem read_until_quiet_loop_busy (source : Nat → List Char) (quiet_time max_total : Nat)
    (hs : ∀ i, (source i).isEmpty = false) (hq : 1 ≤ quiet_time) :
    ∀ (n t last : Nat) (data : List Char), max_total = t + n →
      read_until_quiet_loop source quiet_time max_total t last data
        = (max_total, data ++ ((List.range' t (n + 1)).map source).flatten) := by
  intro n
  induction n with
  | zero =>
    intro t last data ht
    rw [read_until_quiet_loop]
    simp [hs t, ht, Nat.sub_self]
  | succ k ih =>
    intro t last data ht
    rw [read_until_quiet_loop]
    have hlt : ¬ max_total ≤ t := by omega
    have hq0 : ¬ quiet_time ≤ 0 := by omega
    simp only [hs t, Bool.not_false, if_true, Nat.sub_self]
    rw [if_neg hq0, if_neg hlt, ih (t + 1) t (data ++ source t) (by omega)]
    simp [List.range'_succ, List.append_assoc]

/-- C2.  For a byte source that never stops producing bytes (and a
quiet interval of at least one poll tick, as in the source where the
quiet interval always exceeds the 0.05 s poll cadence), the reader
stops exactly at the max_total deadline, not later, and returns every
byte accumulated up to and including that tick; the deadline is not
surfaced as an error, the accumulated data is returned as is. -/
theorem c2_deadline (source : Nat → List Char) (quiet_time max_total : Nat)
    (hs : ∀ i, (source i).isEmpty = false) (hq : 1 ≤ quiet_time) :
    read_until_quiet source quiet_time max_total
      = (max_total, ((List.range (max_total + 1)).map source).flatten) := by
  rw [read_until_quiet,
    read_until_quiet_loop_busy source quiet_time max_total hs hq max_total 0 0 [] (by omega)]
  simp [List.range_eq_range']

/-- Witness for C2 with a constant busy source and the source code's
tick counts (quiet 0.4 s = 8 ticks, max_total 0.5 s = 10 ticks). -/
theorem c2_deadline_witness :
    (∀ i : Nat, (((fun _ => ['a']) : Nat → List Char) i).isEmpty = false)
    ∧ 1 ≤ 8
    ∧ read_until_quiet (fun _ => ['a']) 8 10
        = (10, ((List.range (10 + 1)).map (fun _ => ['a'])).flatten) :=
  ⟨fun _ => rfl, by decide,
    c2_deadline (fun _ => ['a']) 8 10 (fun _ => rfl) (by decide)⟩

/-!
Device dialect detection (RouterConnection._detect_device_type).
The nested early returns of the Python function are flattened into a
chain of conditionals with identical dispatch order.
-/

/-- Keyword group for the modern Cisco dialect (ios_xe_keywords). -/
def ios_xe_keywords : List String :=
  ["IOS XE", "IOS-XE", "IOSXE", "CATALYST L3 SWITCH",
   "CAT9K", "CAT3K", "C9300", "C9200", "C9400", "C9500",
   "C3850", "C3650", "CSR1000V", "ISR4", "ASR1000",
   "CISCO NEXUS", "NX-OS"]

/-- Keyword group for the legacy Cisco dialect (ios_keywords). -/
def ios_keywords : List String :=
  ["CISCO IOS", "IOS SOFTWARE", "INTERNETWORK OPERATING SYSTEM",
   "C2960", "C3560", "C2950", "C1900", "C2900", "C800", "C1800",
   "CISCO ROUTER", "CISCO SWITCH"]

/-- Keyword containment against an (already uppercased) response. -/
def containsKw (hay : List Char) (k : String) : Bool := hasSub k.toList hay

/-- Python version_output.upper(), on the ASCII text in scope. -/
def upperOf (resp : List Char) : List Char := resp.map Char.toUpper

/-- RouterConnection._detect_device_type, as a pure function of the
captured detection response.  The Cisco keyword groups are only
consulted when the response contains a CLI marker character; vendor
fallbacks follow, then the marker-only default, then generic. -/
def detect_device_type (resp : List Char) : String :=
  let version_upper := upperOf resp
  let has_cli_marker := resp.contains '#' || resp.contains '>'
  if has_cli_marker && ios_xe_keywords.any (containsKw version_upper) then "cisco_ios_xe"
  else if has_cli_marker && ios_keywords.any (containsKw version_upper) then "cisco_ios"
  else if has_cli_marker && (containsKw version_upper "CISCO" &&
      (containsKw version_upper "SOFTWARE" || containsKw version_upper "VERSION")) then "cisco_ios_xe"
  else if containsKw version_upper "MIKROTIK" || hasSub "] >".toList resp then "mikrotik"
  else if ["HUAWEI", "VRP", "QUIDWAY"].any (containsKw version_upper) then "huawei"
  else if ["JUNIPER", "JUNOS"].any (containsKw version_upper) then "juniper"
  else if has_cli_marker then "cisco_ios_xe"
  else "generic"

/-- C3 counterexample.  A response containing both a legacy keyword
(CISCO IOS) and a modern keyword (IOS XE) but no CLI marker character
is detected as generic, not as the modern Cisco dialect: the whole
Cisco keyword scan is gated on a hash or angle bracket being present
in the response. -/
theorem c3_detection_counterexample :
    containsKw (upperOf ("CISCO IOS SOFTWARE AND IOS XE".toList)) "IOS XE" = true
    ∧ containsKw (upperOf ("CISCO IOS SOFTWARE AND IOS XE".toList)) "CISCO IOS" = true
    ∧ detect_device_type ("CISCO IOS SOFTWARE AND IOS XE".toList) ≠ "cisco_ios_xe" := by
  refine ⟨by decide, by decide, ?_⟩
  decide

/-- C3 (amended).  For a response that contains a CLI marker character
(hash or angle bracket, as every real prompt-bearing response does)
and keywords of both the modern and the legacy Cisco group, detection
commits the modern dialect: the modern group is scanned first and the
first match wins. -/
theorem c3_detection_amended (resp : List Char)
    (hmarker : (resp.contains '#' || resp.contains '>') = true)
    (hmodern : ∃ k ∈ ios_xe_keywords, containsKw (upperOf resp) k = true)
    (hlegacy : ∃ k ∈ ios_keywords, containsKw (upperOf resp) k = true) :
    detect_device_type resp = "cisco_ios_xe" := by
  have hm : '#' ∈ resp ∨ '>' ∈ resp := by simpa using hmarker
  unfold detect_device_type
  simp [hm, hmodern]

/-- Witness for the amended C3 theorem on a banner carrying both a
legacy and a modern keyword plus a prompt character. -/
theorem c3_detection_amended_witness :
    ((("Switch# Cisco IOS Software, Catalyst L3 Switch Software".toList).contains '#'
        || ("Switch# Cisco IOS Software, Catalyst L3 Switch Software".toList).contains '>') = true)
    ∧ (∃ k ∈ ios_xe_keywords,
        containsKw (upperOf "Switch# Cisco IOS Software, Catalyst L3 Switch Software".toList) k = true)
    ∧ (∃ k ∈ ios_keywords,
        containsKw (upperOf "Switch# Cisco IOS Software, Catalyst L3 Switch Software".toList) k = true)
    ∧ detect_device_type ("Switch# Cisco IOS Software, Catalyst L3 Switch Software".toList)
        = "cisco_ios_xe" :=
  ⟨by decide, ⟨"CATALYST L3 SWITCH", by decide, by decide⟩, ⟨"CISCO IOS", by decide, by decide⟩,
    c3_detection_amended _ (by decide) ⟨"CATALYST L3 SWITCH", by decide, by decide⟩
      ⟨"CISCO IOS", by decide, by decide⟩⟩

/-!
Session registry (RouterManager) data model.  A RouterConnection is
reduced to the state consulted by the manager paths under proof: the
cached connected flag, whether an ssh client object exists, whether
the underlying transport reports itself active, and the committed
device type.  Composite operations are modelled as pure functions that
also report the commands they issue and the files they write.
-/

/-- The slice of RouterConnection state the manager paths read. -/
structure RouterState where
  connected : Bool
  ssh_client : Bool
  transport_active : Bool
  device_type : String
deriving DecidableEq

/-- RouterManager.connections, an association list from session name
to connection state. -/
abbrev Registry := List (String × RouterState)

/-- RouterManager.command_templates, transcribed from
router_manager.py lines 378-466. -/
def command_templates : List (String × List (String × String)) :=
  [("cisco_ios",
    [("show_version", "show version"),
     ("show_running", "show running-config"),
     ("show_interfaces", "show ip interface brief"),
     ("show_routes", "show ip route"),
     ("show_arp", "show arp"),
     ("show_mac", "show mac address-table"),
     ("show_log", "show logging"),
     ("show_inventory", "show inventory"),
     ("show_processes", "show processes cpu"),
     ("show_memory", "show memory"),
     ("show_uptime", "show version | include uptime")]),
   ("cisco_ios_xe",
    [("show_version", "show version"),
     ("show_running", "show running-config"),
     ("show_interfaces", "show ip interface brief"),
     ("show_routes", "show ip route"),
     ("show_arp", "show arp"),
     ("show_mac", "show mac address-table"),
     ("show_log", "show logging"),
     ("show_inventory", "show inventory"),
     ("show_processes", "show processes cpu sorted"),
     ("show_memory", "show memory statistics"),
     ("show_platform", "show platform"),
     ("show_environment", "show environment all"),
     ("show_redundancy", "show redundancy"),
     ("show_stackwise", "show switch"),
     ("show_license", "show license summary"),
     ("show_boot", "show boot"),
     ("show_flash", "show flash:"),
     ("show_interfaces_status", "show interfaces status"),
     ("show_interfaces_description", "show interfaces description"),
     ("show_vlan", "show vlan brief"),
     ("show_spanning_tree", "show spanning-tree summary"),
     ("show_cdp_neighbors", "show cdp neighbors detail"),
     ("show_lldp_neighbors", "show lldp neighbors detail"),
     ("show_etherchannel", "show etherchannel summary"),
     ("show_hsrp", "show standby brief"),
     ("show_vrf", "show vrf"),
     ("show_bgp", "show ip bgp summary"),
     ("show_ospf", "show ip ospf neighbor"),
     ("show_eigrp", "show ip eigrp neighbors"),
     ("show_nat", "show ip nat translations"),
     ("show_access_lists", "show access-lists"),
     ("show_route_map", "show route-map"),
     ("show_policy_map", "show policy-map"),
     ("show_qos", "show policy-map interface"),
     ("show_crypto", "show crypto session"),
     ("show_vpn", "show crypto isakmp sa"),
     ("show_users", "show users"),
     ("show_sessions", "show sessions"),
     ("show_clock", "show clock"),
     ("show_ntp", "show ntp status")]),
   ("generic",
    [("show_version", "show version"),
     ("show_running", "show running-config"),
     ("show_interfaces", "show ip interface brief"),
     ("show_routes", "show ip route"),
     ("show_arp", "show arp"),
     ("show_mac", "show mac address-table"),
     ("show_log", "show logging"),
     ("show_inventory", "show inventory"),
     ("show_processes", "show processes cpu"),
     ("show_memory", "show memory"),
     ("show_platform", "show platform"),
     ("show_environment", "show environment all")]),
   ("mikrotik",
    [("show_version", "/system resource print"),
     ("show_running", "/export compact"),
     ("show_interfaces", "/interface print"),
     ("show_routes", "/ip route print"),
     ("show_arp", "/ip arp print"),
     ("show_mac", "/interface bridge host print"),
     ("show_log", "/log print")]),
   ("huawei",
    [("show_version", "display version"),
     ("show_running", "display current-configuration"),
     ("show_interfaces", "display ip interface brief"),
     ("show_routes", "display ip routing-table"),
     ("show_arp", "display arp"),
     ("show_mac", "display mac-address"),
     ("show_log", "display logbuffer")])]

/-- The paging_cmds table of RouterManager._disable_paging. -/
def paging_cmds : List (String × String) :=
  [("cisco_ios", "terminal length 0"),
   ("cisco_ios_xe", "terminal length 0"),
   ("generic", "terminal length 0"),
   ("huawei", "screen-length 0 temporary"),
   ("juniper", "set cli screen-length 0")]

/-- Commands issued by RouterManager._disable_paging for a device
type: the table's entry when defined, nothing otherwise. -/
def disable_paging_issued (device_type : String) : List String :=
  match paging_cmds.lookup device_type with
  | some cmd => [cmd]
  | none => []

/-- Outcome of a composite manager operation: success flag, error
text when failed, and the trace of commands issued to the session. -/
structure OpResult where
  success : Bool
  error : Option String
  issued : List String
deriving DecidableEq

/-- RouterManager.get_router_info: session lookup, dialect table
lookup, then paging disable followed by the version and interface
commands.  Every table lookup mirrors the Python dict access; the
getD default is never reached because every dialect table defines
both keys (proved in the C4 theorem). -/
def get_router_info (registry : Registry) (router_name : String) : OpResult :=
  match registry.lookup router_name with
  | none =>
    { success := false, error := some ("Router " ++ router_name ++ " not found"), issued := [] }
  | some router =>
    match command_templates.lookup router.device_type with
    | some commands =>
      { success := true, error := none,
        issued := disable_paging_issued router.device_type
          ++ [(commands.lookup "show_version").getD "",
              (commands.lookup "show_interfaces").getD ""] }
    | none =>
      { success := false,
        error := some ("Unsupported device type: " ++ router.device_type), issued := [] }

/-- What RouterManager.execute_command does before delegating. -/
inductive ExecStep where
  | not_found
  | reconnect_failed
  | delegated (command : String)
deriving DecidableEq

/-- RouterConnection.connect as seen from the reconnect path: on
success the cached flag, client and transport all become live. -/
def router_connect (r : RouterState) (succeeds : Bool) : Bool × RouterState :=
  if succeeds then
    (true, { r with connected := true, ssh_client := true, transport_active := true })
  else (false, r)

/-- RouterManager._check_connection_alive: liveness recomputed from
the client object and the transport's active state, with the cached
connected flag rewritten to the recomputed truth. -/
def check_connection_alive (r : RouterState) : Bool × RouterState :=
  if !r.ssh_client then (false, { r with connected := false })
  else if !r.transport_active then (false, { r with connected := false })
  else (true, { r with connected := true })

/-- RouterManager.execute_command: unknown name is a not-found result;
otherwise, when the cached connected flag is false, exactly one
reconnect is attempted before delegating to send_command.  Returns
the step taken and the number of reconnect attempts made. -/
def execute_command (registry : Registry) (connect_succeeds : Bool)
    (router_name command : String) : ExecStep × Nat :=
  match registry.lookup router_name with
  | none => (ExecStep.not_found, 0)
  | some router =>
    if !router.connected then
      if !(router_connect router connect_succeeds).1 then (ExecStep.reconnect_failed, 1)
      else (ExecStep.delegated command, 1)
    else (ExecStep.delegated command, 0)

/-- Outcome record of RouterManager.backup_config. -/
structure BackupOutcome where
  success : Bool
  error : Option String
  message : Option String
  filename : Option String
deriving DecidableEq

/-- RouterManager.backup_config: session lookup, dialect table lookup
for show_running, then the command execution and the file write.  The
command execution outcome and the write outcome are oracles
(command_ok, write_ok with their error texts); the second component
is the list of files written to the backup store. -/
def backup_config (registry : Registry) (router_name timestamp : String)
    (command_ok write_ok : Bool) (command_error write_error : String) :
    BackupOutcome × List String :=
  match registry.lookup router_name with
  | none =>
    ({ success := false, error := some ("Router " ++ router_name ++ " not found"),
       message := none, filename := none }, [])
  | some router =>
    match command_templates.lookup router.device_type with
    | none =>
      ({ success := false,
         error := some ("Unsupported device type: " ++ router.device_type),
         message := none, filename := none }, [])
    | some _commands =>
      if command_ok then
        if write_ok then
          ({ success := true, error := none,
             message := some "Configuration backed up successfully",
             filename := some (router_name ++ "_config_" ++ timestamp ++ ".txt") },
           [router_name ++ "_config_" ++ timestamp ++ ".txt"])
        else
          ({ success := false, error := some ("Failed to save backup: " ++ write_error),
             message := none, filename := none }, [])
      else
        ({ success := false, error := some command_error,
           message := none, filename := none }, [])

/-- RouterManager.get_logs: session lookup, dialect table lookup, then
paging disable and the per-category log commands. -/
def get_logs (registry : Registry) (router_name log_type : String) : OpResult :=
  match registry.lookup router_name with
  | none =>
    { success := false, error := some ("Router " ++ router_name ++ " not found"), issued := [] }
  | some router =>
    match command_templates.lookup router.device_type with
    | none =>
      { success := false,
        error := some ("Unsupported device type: " ++ router.device_type), issued := [] }
    | some commands =>
      { success := true, error := none,
        issued := disable_paging_issued router.device_type
          ++ (if log_type == "all" || log_type == "system"
              then [(commands.lookup "show_log").getD ""] else [])
          ++ (if log_type == "all" || log_type == "interface"
              then [(commands.lookup "show_interfaces").getD ""] else [])
          ++ (if log_type == "all" || log_type == "routing"
              then [(commands.lookup "show_routes").getD "",
                    (commands.lookup "show_arp").getD ""] else []) }

theorem lookup_mem {α β : Type} [BEq α] [LawfulBEq α] {l : List (α × β)} {a : α} {b : β}
    (h : l.lookup a = some b) : (a, b) ∈ l := by
  obtain ⟨l₁, l₂, rfl, -⟩ := List.lookup_eq_some_iff.mp h
  simp

/-- A live session committed to the given dialect, as add_router
leaves it after a successful connect. -/
def sampleSession (dt : String) : RouterState :=
  { connected := true, ssh_client := true, transport_active := true, device_type := dt }

/-- C4 counterexample.  For a session at dialect cisco_ios,
get_router_info does not issue exactly the two mapped commands: the
pagination-disable command is issued first, so three commands go out. -/
theorem c4_info_counterexample :
    (get_router_info [("r1", sampleSession "cisco_ios")] "r1").issued
      ≠ ["show version", "show ip interface brief"] := by decide

/-- C4 (amended).  For every registered session whose dialect has a
command map M, get_router_info issues the dialect's pagination-disable
command (when one is defined) followed by exactly M show_version and
M show_interfaces and nothing else; for a dialect with no command map
it returns an unsupported failure and issues no command. -/
theorem c4_info_amended (registry : Registry) (router_name : String) (r : RouterState)
    (hr : registry.lookup router_name = some r) :
    (∀ m, command_templates.lookup r.device_type = some m →
      ∃ sv si, m.lookup "show_version" = some sv ∧ m.lookup "show_interfaces" = some si ∧
        get_router_info registry router_name
          = { success := true, error := none,
              issued := disable_paging_issued r.device_type ++ [sv, si] })
    ∧ (command_templates.lookup r.device_type = none →
        get_router_info registry router_name
          = { success := false,
              error := some ("Unsupported device type: " ++ r.device_type), issued := [] }) := by
  constructor
  · intro m hm
    have hmem := lookup_mem hm
    have hkeys : (m.lookup "show_version").isSome = true
        ∧ (m.lookup "show_interfaces").isSome = true := by
      simp only [command_templates, List.mem_cons, List.not_mem_nil, or_false,
        Prod.mk.injEq] at hmem
      rcases hmem with ⟨-, rfl⟩ | ⟨-, rfl⟩ | ⟨-, rfl⟩ | ⟨-, rfl⟩ | ⟨-, rfl⟩ <;> exact ⟨rfl, rfl⟩
    obtain ⟨sv, hsv⟩ := Option.isSome_iff_exists.mp hkeys.1
    obtain ⟨si, hsi⟩ := Option.isSome_iff_exists.mp hkeys.2
    refine ⟨sv, si, hsv, hsi, ?_⟩
    simp only [get_router_info, hr, hm, hsv, hsi, Option.getD_some]
  · intro hm
    simp only [get_router_info, hr, hm]

/-- Witness for the amended C4 theorem: a cisco_ios session issues
the paging command then the two mapped commands; a juniper session is
unsupported. -/
theorem c4_info_amended_witness :
    (∃ sv si,
      ((command_templates.lookup "cisco_ios").getD []).lookup "show_version" = some sv
      ∧ ((command_templates.lookup "cisco_ios").getD []).lookup "show_interfaces" = some si
      ∧ get_router_info [("r1", sampleSession "cisco_ios")] "r1"
          = { success := true, error := none,
              issued := disable_paging_issued "cisco_ios" ++ [sv, si] })
    ∧ get_router_info [("j1", sampleSession "juniper")] "j1"
        = { success := false, error := some ("Unsupported device type: " ++ "juniper"),
            issued := [] } :=
  ⟨(c4_info_amended [("r1", sampleSession "cisco_ios")] "r1" (sampleSession "cisco_ios")
      rfl).1 ((command_templates.lookup "cisco_ios").getD []) rfl,
   (c4_info_amended [("j1", sampleSession "juniper")] "j1" (sampleSession "juniper")
      rfl).2 rfl⟩

/-- C5 counterexample.  The claim says liveness is recomputed from the
transport and one reconnect happens whenever the session is not alive;
but execute_command trusts the cached connected flag: for a session
whose flag is still true while its transport is inactive, the derived
liveness is false yet zero reconnects are attempted. -/
theorem c5_reconnect_counterexample :
    ¬ (∀ (registry : Registry) (connect_succeeds : Bool) (router_name command : String)
        (r : RouterState), registry.lookup router_name = some r →
        (check_connection_alive r).1 = false →
        (execute_command registry connect_succeeds router_name command).2 = 1) := by
  intro h
  have h2 := h [("r1", RouterState.mk true true false "cisco_ios")] true "r1" "show version"
    (RouterState.mk true true false "cisco_ios") rfl (by decide)
  exact absurd h2 (by decide)

/-- C5 (amended).  execute_command attempts exactly one reconnect when
the session's cached connected flag is false and none when it is true;
liveness on this path is the cached flag (the transport-derived check
of _check_connection_alive is not consulted), and the command is
delegated when the flag was true or the single reconnect succeeded. -/
theorem c5_reconnect_amended (registry : Registry) (connect_succeeds : Bool)
    (router_name command : String) (r : RouterState)
    (hr : registry.lookup router_name = some r) :
    (execute_command registry connect_succeeds router_name command).2
      = (if r.connected then 0 else 1)
    ∧ (r.connected = true →
        (execute_command registry connect_succeeds router_name command).1
          = ExecStep.delegated command)
    ∧ (r.connected = false → connect_succeeds = true →
        (execute_command registry connect_succeeds router_name command).1
          = ExecStep.delegated command) := by
  simp only [execute_command, hr]
  cases hc : r.connected <;> cases connect_succeeds <;> simp [router_connect]

/-- Witness for the amended C5 theorem on a session whose cached flag
is false: one reconnect, then delegation. -/
theorem c5_reconnect_amended_witness :
    (execute_command [("r1", RouterState.mk false true false "cisco_ios")] true "r1"
        "show clock").2
      = (if (RouterState.mk false true false "cisco_ios").connected then 0 else 1)
    ∧ ((RouterState.mk false true false "cisco_ios").connected = true →
        (execute_command [("r1", RouterState.mk false true false "cisco_ios")] true "r1"
            "show clock").1 = ExecStep.delegated "show clock")
    ∧ ((RouterState.mk false true false "cisco_ios").connected = false → true = true →
        (execute_command [("r1", RouterState.mk false true false "cisco_ios")] true "r1"
            "show clock").1 = ExecStep.delegated "show clock") :=
  c5_reconnect_amended [("r1", RouterState.mk false true false "cisco_ios")] true "r1"
    "show clock" (RouterState.mk false true false "cisco_ios") rfl

/-- C6.  backup_config on a registered session whose dialect has no
command map (hence no show_running mapping) returns success = false
with the unsupported-device error and writes no file: the list of
files written on this path is empty. -/
theorem c6_backup_unsupported (registry : Registry) (router_name timestamp : String)
    (command_ok write_ok : Bool) (command_error write_error : String) (r : RouterState)
    (hr : registry.lookup router_name = some r)
    (hunsup : command_templates.lookup r.device_type = none) :
    backup_config registry router_name timestamp command_ok write_ok command_error write_error
      = ({ success := false,
           error := some ("Unsupported device type: " ++ r.device_type),
           message := none, filename := none }, []) := by
  simp only [backup_config, hr, hunsup]

/-- Witness for C6 on a juniper session. -/
theorem c6_backup_unsupported_witness :
    backup_config [("j1", sampleSession "juniper")] "j1" "20250101_000000" true true "e" "w"
      = ({ success := false,
           error := some ("Unsupported device type: " ++ "juniper"),
           message := none, filename := none }, []) :=
  c6_backup_unsupported [("j1", sampleSession "juniper")] "j1" "20250101_000000" true true
    "e" "w" (sampleSession "juniper") rfl rfl

/-- C10.  A JUNOS banner commits the detector to juniper, the command
template table has no juniper entry, so every composite operation on a
juniper session fails as unsupported while plain execute_command still
delegates the command with no reconnect. -/
theorem c10_juniper_gap :
    detect_device_type ("JUNOS 20.4R3 built by builder".toList) = "juniper"
    ∧ command_templates.lookup "juniper" = none
    ∧ get_router_info [("j1", sampleSession "juniper")] "j1"
        = { success := false, error := some "Unsupported device type: juniper", issued := [] }
    ∧ backup_config [("j1", sampleSession "juniper")] "j1" "20250101_000000" true true "e" "w"
        = ({ success := false, error := some "Unsupported device type: juniper",
             message := none, filename := none }, [])
    ∧ get_logs [("j1", sampleSession "juniper")] "j1" "all"
        = { success := false, error := some "Unsupported device type: juniper", issued := [] }
    ∧ execute_command [("j1", sampleSession "juniper")] true "j1" "show version"
        = (ExecStep.delegated "show version", 0) := by
  exact ⟨by decide, by decide, by decide, by decide, by decide, by decide⟩

/-!
Error-path result dictionaries.  Each failure dictionary built by the
source is embedded as an association list of field name to field text
(the boolean False of the success field is rendered as the text
"false"; only the key set and the identifier-bearing texts matter to
the claims).
-/

/-- send_command when not connected (router_manager.py lines 250-254):
success, error and command fields, no timestamp. -/
def send_command_not_connected (command : String) : List (String × String) :=
  [("success", "false"), ("error", "Not connected to router"), ("command", command)]

/-- send_command exception path (lines 317-322): success, error,
command and timestamp. -/
def send_command_exception (command err timestamp : String) : List (String × String) :=
  [("success", "false"), ("error", err), ("command", command), ("timestamp", timestamp)]

/-- The session-not-found dictionary shared by execute_command,
remove_router, get_router_info, backup_config and get_logs:
success and an error embedding the router name, no timestamp. -/
def router_not_found_result (router_name : String) : List (String × String) :=
  [("success", "false"), ("error", "Router " ++ router_name ++ " not found")]

/-- The unsupported-dialect dictionary of get_router_info,
backup_config and get_logs: success and an error embedding the device
type, no timestamp and no router name field. -/
def unsupported_device_result (device_type : String) : List (String × String) :=
  [("success", "false"), ("error", "Unsupported device type: " ++ device_type)]

/-- add_router exception path (lines 493-497): success, error and
timestamp, no router name field. -/
def add_router_exception (err timestamp : String) : List (String × String) :=
  [("success", "false"), ("error", err), ("timestamp", timestamp)]

/-- Field presence in a result dictionary. -/
def dict_has_key (d : List (String × String)) (k : String) : Bool :=
  d.any (fun kv => kv.1 == k)

/-- The dictionary mentions the given identifier: some field's text
contains it as a substring. -/
def dict_mentions (d : List (String × String)) (t : String) : Prop :=
  ∃ kv ∈ d, t.toList <:+: kv.2.toList

/-- C7 counterexample.  The not-connected error result of send_command
is an error-path result of a core operation that carries no timestamp
field, refuting the claim that every error path includes one. -/
theorem c7_error_fields_counterexample :
    dict_has_key (send_command_not_connected "show version") "success" = true
    ∧ dict_has_key (send_command_not_connected "show version") "timestamp" = false := by
  decide

/-- C7 (amended).  Error results of send_command always carry the
original command, but only the exception path carries a timestamp; the
session-not-found results embed the router name in the error text with
no timestamp; the unsupported-dialect results embed the device type
only, with neither timestamp nor router name field; the add_router
exception result has a timestamp but no name field. -/
theorem c7_error_fields_amended (command router_name device_type err timestamp : String) :
    dict_mentions (send_command_not_connected command) command
    ∧ dict_has_key (send_command_not_connected command) "timestamp" = false
    ∧ dict_mentions (send_command_exception command err timestamp) command
    ∧ dict_has_key (send_command_exception command err timestamp) "timestamp" = true
    ∧ dict_mentions (router_not_found_result router_name) router_name
    ∧ dict_has_key (router_not_found_result router_name) "timestamp" = false
    ∧ dict_mentions (unsupported_device_result device_type) device_type
    ∧ dict_has_key (unsupported_device_result device_type) "timestamp" = false
    ∧ dict_has_key (add_router_exception err timestamp) "timestamp" = true := by
  refine ⟨?_, by simp [send_command_not_connected, dict_has_key], ?_,
    by simp [send_command_exception, dict_has_key], ?_,
    by simp [router_not_found_result, dict_has_key], ?_,
    by simp [unsupported_device_result, dict_has_key],
    by simp [add_router_exception, dict_has_key]⟩
  · exact ⟨("command", command), by simp [send_command_not_connected], List.infix_rfl⟩
  · exact ⟨("command", command), by simp [send_command_exception], List.infix_rfl⟩
  · refine ⟨("error", "Router " ++ router_name ++ " not found"),
      by simp [router_not_found_result], ?_⟩
    simp only [String.toList, String.data_append]
    exact List.infix_append _ _ _
  · refine ⟨("error", "Unsupported device type: " ++ device_type),
      by simp [unsupported_device_result], ?_⟩
    simp only [String.toList, String.data_append]
    exact ⟨"Unsupported device type: ".data, [], by simp⟩

/-- Witness for the amended C7 theorem at concrete field values. -/
theorem c7_error_fields_amended_witness :
    dict_mentions (send_command_not_connected "show arp") "show arp"
    ∧ dict_has_key (send_command_not_connected "show arp") "timestamp" = false
    ∧ dict_mentions (send_command_exception "show arp" "boom" "2025-01-01T00:00:00") "show arp"
    ∧ dict_has_key (send_command_exception "show arp" "boom" "2025-01-01T00:00:00")
        "timestamp" = true
    ∧ dict_mentions (router_not_found_result "r9") "r9"
    ∧ dict_has_key (router_not_found_result "r9") "timestamp" = false
    ∧ dict_mentions (unsupported_device_result "juniper") "juniper"
    ∧ dict_has_key (unsupported_device_result "juniper") "timestamp" = false
    ∧ dict_has_key (add_router_exception "boom" "2025-01-01T00:00:00") "timestamp" = true :=
  c7_error_fields_amended "show arp" "r9" "juniper" "boom" "2025-01-01T00:00:00"

/-!
Console bridge input rate limiter (main_router.py, websocket_ssh_console).
Token amounts and time are rationals; the per-connection constants of
the source are bucket_capacity = 4096 and refill_rate = 1024.
-/

/-- The per-connection token bucket state of websocket_ssh_console. -/
structure Bucket where
  capacity : ℚ
  refill_rate : ℚ
  available : ℚ
  last_refill : ℚ
deriving DecidableEq

/-- The source's per-connection constants (main_router.py 711-714). -/
def initial_bucket : Bucket :=
  { capacity := 4096, refill_rate := 1024, available := 4096, last_refill := 0 }

/-- take_tokens (main_router.py 716-726): refill by elapsed time up to
capacity, then admit the n bytes only if they all fit. -/
def take_tokens (b : Bucket) (now n : ℚ) : Bool × Bucket :=
  let elapsed := now - b.last_refill
  let b' := if 0 < elapsed then
      { b with available := min b.capacity (b.available + elapsed * b.refill_rate),
               last_refill := now }
    else b
  if n ≤ b'.available then (true, { b' with available := b'.available - n })
  else (false, b')

/-- The bridge's reaction to one client message (main_router.py
748-750): a rejected message is dropped and answered with the rate
limit warning; an admitted message is forwarded. -/
def console_warning (admitted : Bool) : Option String :=
  if admitted then none else some "[WARN] Rate limit exceeded, input dropped\n"

/-- Admission decisions for a sequence of message sizes all arriving
at the same instant, threading the bucket state. -/
def process_inputs (b : Bucket) (now : ℚ) : List ℚ → List Bool
  | [] => []
  | n :: rest => (take_tokens b now n).1 :: process_inputs (take_tokens b now n).2 now rest

/-- C8 counterexample.  With a bucket of capacity 100 and refill rate
10, a single 150-byte message sent at once is rejected whole: no first
100 bytes' worth succeeds, the message is dropped entirely (with the
warning), refuting the claimed partial admission. -/
theorem c8_rate_limiter_counterexample :
    (take_tokens (Bucket.mk 100 10 100 0) 0 150).1 = false
    ∧ (take_tokens (Bucket.mk 100 10 100 0) 0 150).2.available = 100
    ∧ console_warning (take_tokens (Bucket.mk 100 10 100 0) 0 150).1
        = some "[WARN] Rate limit exceeded, input dropped\n" := by
  refine ⟨?_, ?_, ?_⟩ <;> norm_num [take_tokens, console_warning]

/-- C8 (amended).  Admission is per message and all-or-nothing: for a
bucket with capacity 100 and refill 10, 150 bytes sent instantly as
fifteen 10-byte messages see the first ten admitted (100 bytes' worth)
and each of the last five dropped with the rate-limit warning signaled
back; in the source the capacity and refill rate are the fixed
per-connection constants 4096 and 1024. -/
theorem c8_rate_limiter_amended :
    process_inputs (Bucket.mk 100 10 100 0) 0 (List.replicate 15 10)
      = List.replicate 10 true ++ List.replicate 5 false
    ∧ console_warning false = some "[WARN] Rate limit exceeded, input dropped\n"
    ∧ console_warning true = none
    ∧ initial_bucket.capacity = 4096 ∧ initial_bucket.refill_rate = 1024 := by
  refine ⟨?_, by simp [console_warning], by simp [console_warning], rfl, rfl⟩
  norm_num [process_inputs, take_tokens, List.replicate]

/-!
Backup file retrieval validation (main_router.py, download_backup_file)
against the exact naming scheme of the spec.
-/

/-- download_backup_file's admission test (main_router.py 814-817): no
slash, no dot-dot, no backslash anywhere; must end in .txt and contain
the _config_ marker.  True means the request proceeds to be served. -/
def validate_backup_filename (f : List Char) : Bool :=
  if f.contains '/' || hasSub "..".toList f || f.contains '\\' then false
  else if !(".txt".toList.isSuffixOf f) || !(hasSub "_config_".toList f) then false
  else true

/-- Decimal digit test for the timestamp shape. -/
def isDigitChar (c : Char) : Bool := '0' ≤ c && c ≤ '9'

/-- Modelled from the spec: the timestamp format %Y%m%d_%H%M%S used by
backup_config, eight digits, an underscore, six digits. -/
def timestamp_shaped (ts : List Char) : Bool :=
  ts.length == 15 && (ts.take 8).all isDigitChar && (ts.drop 8).take 1 == ['_']
    && (ts.drop 9).all isDigitChar

/-- The exact backup artifact name of the naming scheme
session name, _config_, timestamp, .txt. -/
def spec_backup_name (session ts : List Char) : List Char :=
  session ++ "_config_".toList ++ ts ++ ".txt".toList

/-- Modelled from the spec: a filename matches the exact pattern when
it decomposes as some session name, the _config_ marker, a
%Y%m%d_%H%M%S timestamp and the .txt extension. -/
def matches_spec_pattern (f : List Char) : Prop :=
  ∃ session ts, timestamp_shaped ts = true ∧ f = spec_backup_name session ts

/-- C9 counterexample.  The endpoint accepts hack_config_evil.txt,
which contains no traversal characters yet does not match the exact
naming pattern (evil is not a timestamp): acceptance is strictly
looser than the pattern the claim states. -/
theorem c9_download_counterexample :
    validate_backup_filename ("hack_config_evil.txt".toList) = true
    ∧ ¬ matches_spec_pattern ("hack_config_evil.txt".toList) := by
  refine ⟨by decide, ?_⟩
  rintro ⟨session, ts, hts, heq⟩
  have hlen : ("hack_config_evil.txt".toList).length
      = session.length + 8 + ts.length + 4 := by
    rw [heq]; simp [spec_backup_name]; omega
  have hts15 : ts.length = 15 := by
    have := hts
    simp only [timestamp_shaped, Bool.and_eq_true, beq_iff_eq] at this
    exact this.1.1.1
  simp at hlen
  omega

/-- C9 (amended).  Retrieval accepts a filename if and only if it has
no slash, dot-dot or backslash, ends in .txt and contains the
_config_ marker; in particular every exact-pattern name free of
traversal characters is accepted, but acceptance does not enforce the
exact timestamp pattern. -/
theorem c9_download_amended (session ts : List Char)
    (hs : (spec_backup_name session ts).contains '/' = false)
    (hb : (spec_backup_name session ts).contains '\\' = false)
    (hd : hasSub "..".toList (spec_backup_name session ts) = false) :
    validate_backup_filename (spec_backup_name session ts) = true := by
  have hsuffix : ".txt".toList <:+ spec_backup_name session ts := by
    show _ <:+ session ++ "_config_".toList ++ ts ++ ".txt".toList
    exact List.suffix_append _ _
  have hmarker : "_config_".toList <:+: spec_backup_name session ts := by
    show _ <:+: session ++ "_config_".toList ++ ts ++ ".txt".toList
    rw [List.append_assoc, List.append_assoc]
    exact List.infix_append' _ _ _
  unfold validate_backup_filename
  rw [hs, hb, hd]
  simp [hasSub_iff]
  exact ⟨by simpa using hsuffix, by simpa using hmarker⟩

/-- Witness for the amended C9 theorem: a well-formed backup name is
accepted by the endpoint. -/
theorem c9_download_amended_witness :
    ((spec_backup_name "router1".toList "20250101_010101".toList).contains '/' = false)
    ∧ ((spec_backup_name "router1".toList "20250101_010101".toList).contains '\\' = false)
    ∧ (hasSub "..".toList (spec_backup_name "router1".toList "20250101_010101".toList) = false)
    ∧ validate_backup_filename (spec_backup_name "router1".toList "20250101_010101".toList)
        = true :=
  ⟨by decide, by decide, by decide,
    c9_download_amended "router1".toList "20250101_010101".toList
      (by decide) (by decide) (by decide)⟩

end NetworkAutoConfig
